import Mathlib

/-!
Verification of the Go-KeyValue repository (`main.go`).

The store is a generic map `data : map[K]V` guarded by a `sync.RWMutex`,
with four CRUD operations (`Put`, `Get`, `Update`, `Delete`) and a
non-locking helper `Has`.  We embed the sequential semantics of these
operations shallowly: the Go map becomes a function `K → Option V`,
each method becomes a pure function that takes the pre-state and
returns the post-state together with the Go return values.  The single
error the code ever constructs, `fmt.Errorf("the key (%v) does not
exist", key)`, is modelled by `GoError.notFound`.  Go's zero value of
the value type (what `value, ok := m[key]` leaves in `value` when the
key is absent) is modelled by `Inhabited.default`.

The echo HTTP handlers (`handlePut`, `handleGet`, `handleUpdate`,
`handleDelete`) become functions from the store state and the request
parameters to the new state and the response the handler produces:
`c.JSON(status, payload)` becomes `Response.json status payload` and a
Go error returned to the framework becomes `Response.err e`.
-/

namespace GoKV

/-- The one error the store code ever constructs:
`fmt.Errorf("the key (%v) does not exist", key)`, i.e. the spec's
`NotFound`. -/
inductive GoError where
  | notFound
deriving DecidableEq, Repr

/-- `KVStore[K comparable, V any]` from `main.go`: the field `data map[K]V`
is embedded as a function to `Option V` (`none` = key absent).  The
`sync.RWMutex` field has no sequential content and is omitted. -/
structure KVStore (K V : Type) where
  data : K → Option V

/-- `NewKVStore`: a store with an empty mapping (`make(map[K]V)`). -/
def NewKVStore (K V : Type) : KVStore K V :=
  { data := fun _ => none }

/-- `Has`: `_, ok := s.data[key]; return ok`. -/
def Has {K V : Type} (s : KVStore K V) (key : K) : Bool :=
  (s.data key).isSome

/-- `Put`: `s.data[key] = value; return nil`.  Returns the post-state and
the Go error value (always `nil` = `none`). -/
def Put {K V : Type} [DecidableEq K] (s : KVStore K V) (key : K) (value : V) :
    KVStore K V × Option GoError :=
  ({ data := Function.update s.data key (some value) }, none)

/-- `Get`: `value, ok := s.data[key]; if !ok { return value, err }; return
value, nil`.  Returns the post-state (the map is not written), the returned
`V` (the zero value `default` when absent) and the error. -/
def Get {K V : Type} [Inhabited V] (s : KVStore K V) (key : K) :
    KVStore K V × V × Option GoError :=
  match s.data key with
  | none => (s, default, some GoError.notFound)
  | some value => (s, value, none)

/-- `Update`: `if !s.Has(key) { return err }; s.data[key] = value; return
nil`. -/
def Update {K V : Type} [DecidableEq K] (s : KVStore K V) (key : K) (value : V) :
    KVStore K V × Option GoError :=
  if ¬ Has s key then (s, some GoError.notFound)
  else ({ data := Function.update s.data key (some value) }, none)

/-- `Delete`: `value, ok := s.data[key]; if !ok { return value, err };
delete(s.data, key); return value, nil`. -/
def Delete {K V : Type} [DecidableEq K] [Inhabited V] (s : KVStore K V) (key : K) :
    KVStore K V × V × Option GoError :=
  match s.data key with
  | none => (s, default, some GoError.notFound)
  | some value => ({ data := Function.update s.data key none }, value, none)

/-- The response an echo handler produces: `Response.json status payload`
for `c.JSON(status, payload)` (the payload is the `map[string]string`
literal, as a list of pairs), `Response.err e` for `return err`. -/
inductive Response where
  | json (status : Nat) (payload : List (String × String))
  | err (e : GoError)
deriving DecidableEq, Repr

/-- `handlePut`: calls `Put` (ignoring its error, which is always nil) and
replies `c.JSON(http.StatusOK, map[string]string{"msg": "ok"})`. -/
def handlePut (s : KVStore String String) (key value : String) :
    KVStore String String × Response :=
  let r := Put s key value
  (r.1, Response.json 200 [("msg", "ok")])

/-- `handleGet`: calls `Get`; on error `return err`, otherwise replies
`c.JSON(http.StatusOK, map[string]string{"value": value})`. -/
def handleGet (s : KVStore String String) (key : String) :
    KVStore String String × Response :=
  let r := Get s key
  match r.2.2 with
  | some e => (r.1, Response.err e)
  | none => (r.1, Response.json 200 [("value", r.2.1)])

/-- `handleUpdate`: calls `Update` but discards its error, and
unconditionally replies
`c.JSON(http.StatusOK, map[string]string{"updated-value": value})`. -/
def handleUpdate (s : KVStore String String) (key value : String) :
    KVStore String String × Response :=
  let r := Update s key value
  (r.1, Response.json 200 [("updated-value", value)])

/-- `handleDelete`: calls `Delete` but discards its error and returned
value, and unconditionally replies
`c.JSON(http.StatusOK, map[string]string{"deleted-entry": key})`. -/
def handleDelete (s : KVStore String String) (key : String) :
    KVStore String String × Response :=
  let r := Delete s key
  (r.1, Response.json 200 [("deleted-entry", key)])

/-- A concrete empty store over `Nat` keys and values, for witnesses. -/
def ex0 : KVStore Nat Nat :=
  NewKVStore Nat Nat

/-- A concrete store mapping the key `1` to the value `5`. -/
def ex1 : KVStore Nat Nat :=
  { data := fun k => if k = 1 then some 5 else none }

/-- A concrete empty store over `String` keys and values. -/
def emptyStore : KVStore String String :=
  NewKVStore String String

/-- C1: `Update k v` on an absent key fails with NotFound and leaves the
store unchanged (in particular it never creates a key); on a present key
it succeeds and afterwards `k` maps to `v`. -/
theorem C1_update_requires_existence {K V : Type} [DecidableEq K]
    (s : KVStore K V) (k : K) (v : V) :
    (s.data k = none →
      (Update s k v).2 = some GoError.notFound ∧ (Update s k v).1 = s) ∧
    (Has s k = true →
      (Update s k v).2 = none ∧ (Update s k v).1.data k = some v) := by
  constructor
  · intro h
    simp [Update, Has, h]
  · intro h
    simp [Update, h]

/-- C1 witness: at the empty store `Update 1 5` fails with NotFound and
changes nothing; at the store `{1 ↦ 5}` it succeeds, after which `1 ↦ 7`. -/
theorem C1_witness :
    ((Update ex0 1 5).2 = some GoError.notFound ∧ (Update ex0 1 5).1 = ex0) ∧
    ((Update ex1 1 7).2 = none ∧ (Update ex1 1 7).1.data 1 = some 7) :=
  ⟨(C1_update_requires_existence ex0 1 5).1 rfl,
   (C1_update_requires_existence ex1 1 7).2 rfl⟩

/-- C2: `Put k v` always succeeds (the returned error is nil) and
afterwards the mapping contains `k ↦ v`, for every starting state. -/
theorem C2_put_upsert {K V : Type} [DecidableEq K]
    (s : KVStore K V) (k : K) (v : V) :
    (Put s k v).2 = none ∧ (Put s k v).1.data k = some v := by
  refine ⟨rfl, ?_⟩
  simp [Put]

/-- C3: `Delete k` on a present key succeeds, returns the stored value,
and leaves `k` absent; on an absent key it fails with NotFound (so a
second Delete of the same key fails). -/
theorem C3_delete {K V : Type} [DecidableEq K] [Inhabited V]
    (s : KVStore K V) (k : K) :
    (∀ v, s.data k = some v →
      (Delete s k).2.2 = none ∧ (Delete s k).2.1 = v ∧
      (Delete s k).1.data k = none) ∧
    (s.data k = none → (Delete s k).2.2 = some GoError.notFound) := by
  constructor
  · intro v h
    simp [Delete, h]
  · intro h
    simp [Delete, h]

/-- C3 witness: deleting key `1` from the store `{1 ↦ 5}` succeeds,
returns `5` and leaves `1` absent; deleting from the empty store fails
with NotFound. -/
theorem C3_witness :
    ((Delete ex1 1).2.2 = none ∧ (Delete ex1 1).2.1 = 5 ∧
      (Delete ex1 1).1.data 1 = none) ∧
    (Delete ex0 1).2.2 = some GoError.notFound :=
  ⟨(C3_delete ex1 1).1 5 rfl, (C3_delete ex0 1).2 rfl⟩

/-- C4: `Get k` returns the current value when `k` is present, fails with
NotFound when `k` is absent, and in both cases the mapping after the call
is the mapping before the call. -/
theorem C4_get {K V : Type} [Inhabited V] (s : KVStore K V) (k : K) :
    (∀ v, s.data k = some v → (Get s k).2.1 = v ∧ (Get s k).2.2 = none) ∧
    (s.data k = none → (Get s k).2.2 = some GoError.notFound) ∧
    (Get s k).1 = s := by
  refine ⟨?_, ?_, ?_⟩
  · intro v h
    simp [Get, h]
  · intro h
    simp [Get, h]
  · unfold Get
    cases s.data k <;> rfl

/-- C4 witness: on the store `{1 ↦ 5}`, `Get 1` returns `5` with no
error; on the empty store, `Get 1` fails with NotFound; both leave the
store unchanged. -/
theorem C4_witness :
    ((Get ex1 1).2.1 = 5 ∧ (Get ex1 1).2.2 = none) ∧
    (Get ex0 1).2.2 = some GoError.notFound ∧
    (Get ex0 1).1 = ex0 :=
  ⟨(C4_get ex1 1).1 5 rfl, (C4_get ex0 1).2.1 rfl, (C4_get ex0 1).2.2⟩

/-- C5 counterexample: on the empty store, `Update "a" "b"` fails with
NotFound, yet `handleUpdate` replies with the confirmation payload
`{"updated-value": "b"}` and not with a "not found" response: the claim
that every NotFound store failure is translated into a not-found
response is false for the code's Update (and Delete) handlers. -/
theorem C5_counterexample :
    (Update emptyStore "a" "b").2 = some GoError.notFound ∧
    (handleUpdate emptyStore "a" "b").2 =
      Response.json 200 [("updated-value", "b")] ∧
    (handleUpdate emptyStore "a" "b").2 ≠ Response.err GoError.notFound := by
  refine ⟨rfl, rfl, ?_⟩
  intro h
  simp [handleUpdate] at h

/-- C5 amended: `handleGet` propagates a store error to the framework as
an error response and returns the value payload on success; `handlePut`
always replies with the `{"msg": "ok"}` confirmation; but `handleUpdate`
and `handleDelete` ignore the store result and always reply with a
confirmation payload, even when the operation failed with NotFound. -/
theorem C5_adapter_responses (s : KVStore String String) (k v : String) :
    ((Get s k).2.2 = none →
      (handleGet s k).2 = Response.json 200 [("value", (Get s k).2.1)]) ∧
    (∀ e, (Get s k).2.2 = some e → (handleGet s k).2 = Response.err e) ∧
    (handlePut s k v).2 = Response.json 200 [("msg", "ok")] ∧
    (handleUpdate s k v).2 = Response.json 200 [("updated-value", v)] ∧
    (handleDelete s k).2 = Response.json 200 [("deleted-entry", k)] := by
  refine ⟨?_, ?_, rfl, rfl, rfl⟩
  · intro h
    simp [handleGet, h]
  · intro e h
    simp [handleGet, h]

/-- C5 witness: on the empty store `handleGet "a"` surfaces the NotFound
error, while `handleUpdate "a" "b"` still replies with a confirmation. -/
theorem C5_witness :
    (handleGet emptyStore "a").2 = Response.err GoError.notFound ∧
    (handleUpdate emptyStore "a" "b").2 =
      Response.json 200 [("updated-value", "b")] :=
  ⟨(C5_adapter_responses emptyStore "a" "b").2.1 GoError.notFound rfl,
   (C5_adapter_responses emptyStore "a" "b").2.2.2.1⟩

/-- C6: every operation either succeeds (nil error) or fails with
NotFound leaving the mapping exactly as it was: no partial mutation on
failure, for every key, value and store state. -/
theorem C6_no_partial_mutation {K V : Type} [DecidableEq K] [Inhabited V]
    (s : KVStore K V) (k : K) (v : V) :
    (Put s k v).2 = none ∧
    ((Get s k).2.2 = none ∨
      ((Get s k).2.2 = some GoError.notFound ∧ (Get s k).1 = s)) ∧
    ((Update s k v).2 = none ∨
      ((Update s k v).2 = some GoError.notFound ∧ (Update s k v).1 = s)) ∧
    ((Delete s k).2.2 = none ∨
      ((Delete s k).2.2 = some GoError.notFound ∧ (Delete s k).1 = s)) := by
  refine ⟨rfl, ?_, ?_, ?_⟩
  · unfold Get
    cases s.data k
    · exact Or.inr ⟨rfl, rfl⟩
    · exact Or.inl rfl
  · unfold Update
    by_cases h : Has s k
    · simp [h]
    · simp [h]
  · unfold Delete
    cases s.data k
    · exact Or.inr ⟨rfl, rfl⟩
    · exact Or.inl rfl

/-- C7: for every starting state, `Put k v` followed by `Get k` returns
`v` and the Get succeeds. -/
theorem C7_put_then_get {K V : Type} [DecidableEq K] [Inhabited V]
    (s : KVStore K V) (k : K) (v : V) :
    (Get (Put s k v).1 k).2.1 = v ∧ (Get (Put s k v).1 k).2.2 = none := by
  simp [Put, Get]

/-- C8: `Put k v` twice in a row leaves the same mapping as `Put k v`
once, for every starting state. -/
theorem C8_put_idempotent {K V : Type} [DecidableEq K]
    (s : KVStore K V) (k : K) (v : V) :
    (Put (Put s k v).1 k v).1 = (Put s k v).1 := by
  simp [Put, Function.update_idem]

/-- C10: when `k` is absent, `Get k` and `Delete k` each return the zero
value of the value type (modelled by `default`) alongside the NotFound
error. -/
theorem C10_zero_value_on_absent {K V : Type} [DecidableEq K] [Inhabited V]
    (s : KVStore K V) (k : K) (h : s.data k = none) :
    (Get s k).2.1 = (default : V) ∧ (Get s k).2.2 = some GoError.notFound ∧
    (Delete s k).2.1 = (default : V) ∧
    (Delete s k).2.2 = some GoError.notFound := by
  simp [Get, Delete, h]

/-- C10 witness: key `1` is absent from the empty store; `Get` and
`Delete` both return `0`, the zero value of `Nat`, with NotFound. -/
theorem C10_witness :
    (Get ex0 1).2.1 = 0 ∧ (Get ex0 1).2.2 = some GoError.notFound ∧
    (Delete ex0 1).2.1 = 0 ∧ (Delete ex0 1).2.2 = some GoError.notFound :=
  C10_zero_value_on_absent ex0 1 rfl

end GoKV
